import Mathlib

/-!
Shallow embedding of the GraphQL query engine of rss_autogen_giscus
(src/src/gql.rs, src/src/lib.rs, src/gh_gql_schema/src/lib.rs), together
with theorems settling the specification claims about its retry policy,
pagination protocol, category resolution, duplicate detection and
discussion creation.
-/

/-! ## Substring containment (Rust str::contains with a &str pattern) -/

/-- Checks whether the first list is a prefix of the second, by characters. -/
def charsPrefixOf : List Char → List Char → Bool
  | [], _ => true
  | _ :: _, [] => false
  | a :: as, b :: bs => a == b && charsPrefixOf as bs

/-- Checks whether the first list occurs as a contiguous sublist of the second. -/
def charsContainSub (needle : List Char) : List Char → Bool
  | [] => needle.isEmpty
  | h :: t => charsPrefixOf needle (h :: t) || charsContainSub needle t

/-- Rust str::contains for string patterns: substring containment. -/
def strContains (haystack pattern : String) : Bool :=
  charsContainSub pattern.data haystack.data

/-! ## Retry loop of github_gql_query (src/src/gql.rs lines 22-73)

The network environment is a function from the 1-indexed attempt number to
the response delivered at that attempt. Sleeps are recorded (in seconds)
instead of performed.
-/

/-- The Result<GraphQlResponse<T>, CynicReqwestError> a single request yields:
Ok, the CynicReqwestError::ErrorResponse(status, body) variant the loop
inspects, or any other error variant (returned untouched). -/
inductive RustResult (T : Type) where
  | ok (v : T)
  | errResp (status : Nat) (body : String)
  | errOther (msg : String)
deriving DecidableEq

/-- Outcome of the retry loop: a returned response, or one of the panics. -/
inductive LoopResult (T : Type) where
  | returned (r : RustResult T)
  | fatalAuth (status : Nat) (body : String)
  | fatalRedirect (status : Nat) (body : String)
  | fatalUnhandled (status : Nat) (body : String)
  | fatalExhausted (maxAttempts : Nat) (opName : String)
deriving DecidableEq

/-- What one loop iteration decides to do with the response it received. -/
inductive StepDecision (T : Type) where
  | retry (sleepSecs : Nat)
  | halt (res : LoopResult T)
  | pass (r : RustResult T)
deriving DecidableEq

/-- The body marker checked before the status match in github_gql_query. -/
def serverErrorMarker : String := "Server Error"

/-- Classification of one response inside the loop body of github_gql_query,
in source order: body marker first, then the status match arms 403, 401,
400..=599, 300..=399, catch-all; any non-ErrorResponse result is returned. -/
def decideStep (T : Type) (attempt : Nat) (r : RustResult T) : StepDecision T :=
  match r with
  | .errResp status body =>
    if strContains body serverErrorMarker then .retry 30
    else if status = 403 then .retry (5 * 2 ^ attempt)
    else if status = 401 then .halt (.fatalAuth status body)
    else if 400 ≤ status ∧ status ≤ 599 then .retry 30
    else if 300 ≤ status ∧ status ≤ 399 then .halt (.fatalRedirect status body)
    else .halt (.fatalUnhandled status body)
  | r => .pass r

/-- True when the loop sleeps and moves on to the next attempt. -/
def isRetryStep (T : Type) (attempt : Nat) (r : RustResult T) : Bool :=
  match decideStep T attempt r with
  | .retry _ => true
  | _ => false

/-- State observed after the retry loop finishes: its result, the sleeps it
performed in order (seconds), and the number of attempts made. -/
structure QueryRun (T : Type) where
  result : LoopResult T
  sleeps : List Nat
  attempts : Nat
deriving DecidableEq

/-- The for-loop of github_gql_query: remaining is how many cloned variable
sets are left to consume, attempt is the counter before its increment at the
top of the body; falling off the loop end is the exhaustion panic. -/
def gqlLoop (T : Type) (opName : String) (responses : Nat → RustResult T) :
    Nat → Nat → List Nat → QueryRun T
  | 0, attempt, sleeps => ⟨.fatalExhausted 5 opName, sleeps, attempt⟩
  | remaining + 1, attempt, sleeps =>
    match decideStep T (attempt + 1) (responses (attempt + 1)) with
    | .retry s => gqlLoop T opName responses remaining (attempt + 1) (sleeps ++ [s])
    | .halt res => ⟨res, sleeps, attempt + 1⟩
    | .pass r => ⟨.returned r, sleeps, attempt + 1⟩

/-- github_gql_query: five attempts, counter starting at 0, no sleeps yet. -/
def github_gql_query (T : Type) (opName : String) (responses : Nat → RustResult T) :
    QueryRun T :=
  gqlLoop T opName responses 5 0 []

/-! ## Pagination data (src/gh_gql_schema/src/lib.rs) -/

/-- pageInfo of a connection. -/
structure PageInfo where
  endCursor : Option String
  hasNextPage : Bool
deriving DecidableEq

/-- A discussion node as queried: title, createdAt (modelled as seconds on an
integer timeline), url. -/
structure Discussion where
  id : String
  title : String
  createdAt : Int
  url : String
deriving DecidableEq

/-- An edge of the discussions connection: optional node plus cursor. -/
structure DiscussionEdge where
  node : Option Discussion
  cursor : String
deriving DecidableEq

/-- One page of the discussions connection. -/
structure DiscussionPage where
  edges : List DiscussionEdge
  pageInfo : PageInfo
deriving DecidableEq

/-- A discussion category node: id and name. -/
structure DiscussionCategory where
  id : String
  name : String
deriving DecidableEq

/-- An edge of the category connection. -/
structure CategoryEdge where
  node : Option DiscussionCategory
  cursor : String
deriving DecidableEq

/-- One page of the category connection. -/
structure CategoryPage where
  edges : List CategoryEdge
  pageInfo : PageInfo
deriving DecidableEq

/-- Variables of the CategoryQuery request (owner, repo_name, after_cursor). -/
structure CategoryQueryVariables where
  owner : String
  repoName : String
  afterCursor : Option String
deriving DecidableEq

/-- Variables of the DiscussionExists request. -/
structure DiscussionExistsVariables where
  owner : String
  repoName : String
  catId : String
  afterCursor : Option String
deriving DecidableEq

/-! ## Category resolution (get_category_id, src/src/gql.rs lines 135-180)

The environment supplies the pages the server returns, in request order. The
walk records every request's variables, so both the page-consumption count
and the cursor encoding of each request are observable.
-/

/-- Result of get_category_id: the matching category id, or the panic naming
the category and the repository. -/
inductive CategoryResult where
  | found (id : String)
  | fatalMissing (category owner repoName : String)
deriving DecidableEq

/-- The loop of get_category_id, threading page_end_cursor. Returns the list
of requests issued and the outcome (none when the environment supplied fewer
pages than the walk requested). -/
def get_category_id_walk (target owner repoName : String) (cursor : Option String) :
    List CategoryPage → List CategoryQueryVariables × Option CategoryResult
  | [] => ([⟨owner, repoName, cursor⟩], none)
  | page :: rest =>
    match (page.edges.filterMap CategoryEdge.node).find? (fun cat => cat.name == target) with
    | some cat => ([⟨owner, repoName, cursor⟩], some (.found cat.id))
    | none =>
      if page.pageInfo.hasNextPage then
        let next := get_category_id_walk target owner repoName page.pageInfo.endCursor rest
        (⟨owner, repoName, cursor⟩ :: next.1, next.2)
      else ([⟨owner, repoName, cursor⟩], some (.fatalMissing target owner repoName))

/-- get_category_id: the walk starts with page_end_cursor = None. -/
def get_category_id (target owner repoName : String) (pages : List CategoryPage) :
    List CategoryQueryVariables × Option CategoryResult :=
  get_category_id_walk target owner repoName none pages

/-! ## Duplicate detection (discussion_exists, src/src/gql.rs lines 183-251) -/

/-- chrono Duration::days counted in seconds. -/
def secondsPerDay : Int := 86400

/-- The per-discussion test inside discussion_exists, in source order: the
age cutoff first (skipped entirely when lookback_days is zero), then the
substring match of the discussion title inside the candidate URL path.
some none models the early return Ok(None), some (some url) the early
return Ok(Some(url)), none falling through to the next discussion. -/
def discussionStep (candPath : String) (now lookbackDays : Int) (d : Discussion) :
    Option (Option String) :=
  if lookbackDays ≠ 0 ∧ now - d.createdAt > lookbackDays * secondsPerDay then some none
  else if strContains candPath d.title then some (some d.url)
  else none

/-- Scan of one page's discussion nodes, stopping at the first decision. -/
def scanDiscussions (candPath : String) (now lookbackDays : Int) :
    List Discussion → Option (Option String)
  | [] => none
  | d :: rest =>
    match discussionStep candPath now lookbackDays d with
    | some r => some r
    | none => scanDiscussions candPath now lookbackDays rest

/-- The loop of discussion_exists, threading page_end_cursor and recording
the requests issued. -/
def discussion_exists_walk (candPath : String) (now lookbackDays : Int)
    (owner repoName catId : String) (cursor : Option String) :
    List DiscussionPage → List DiscussionExistsVariables × Option (Option String)
  | [] => ([⟨owner, repoName, catId, cursor⟩], none)
  | page :: rest =>
    match scanDiscussions candPath now lookbackDays (page.edges.filterMap DiscussionEdge.node) with
    | some r => ([⟨owner, repoName, catId, cursor⟩], some r)
    | none =>
      if page.pageInfo.hasNextPage then
        let next := discussion_exists_walk candPath now lookbackDays owner repoName catId
          page.pageInfo.endCursor rest
        (⟨owner, repoName, catId, cursor⟩ :: next.1, next.2)
      else ([⟨owner, repoName, catId, cursor⟩], some none)

/-- discussion_exists: the walk starts with page_end_cursor = None. -/
def discussion_exists (candPath : String) (now lookbackDays : Int)
    (owner repoName catId : String) (pages : List DiscussionPage) :
    List DiscussionExistsVariables × Option (Option String) :=
  discussion_exists_walk candPath now lookbackDays owner repoName catId none pages

/-! ## Mutation construction (create_graphql_request, src/src/gql.rs 85-107) -/

/-- The candidate post: scraped description plus its URL, of which the code
uses the full rendering (Url::to_string) and the path (Url::path). -/
structure Post where
  description : Option String
  urlFull : String
  urlPath : String
deriving DecidableEq

/-- Variables of the CreateCommentsDiscussion mutation. -/
structure CreateCommentsDiscussionVariables where
  repoId : String
  catId : String
  desc : String
  title : String
deriving DecidableEq

/-- Body composition of create_graphql_request: full_desc starts as the post
URL; when a description is present, two newlines are pushed onto it and the
result is inserted at position 0. -/
def full_desc (post : Post) : String :=
  match post.description with
  | some d => (d ++ "\n\n") ++ post.urlFull
  | none => post.urlFull

/-- create_graphql_request builds the mutation variables: desc from
full_desc, title from the post URL path. -/
def create_graphql_request (post : Post) (catId repoId : String) :
    CreateCommentsDiscussionVariables :=
  { repoId := repoId, catId := catId, desc := full_desc post, title := post.urlPath }

/-! ## Orchestration (create_discussion, src/src/lib.rs lines 207-252)

The join! completes both the duplicate search and the mutation construction
before anything later runs; the mutation itself is executed by run_graphql
only on the no-duplicate path. The trace records when the duplicate result
becomes known and when the creation mutation is executed.
-/

/-- Observable events of one create_discussion run. -/
inductive OrchestrationEvent where
  | dupResultKnown (result : Option String)
  | createMutationExecuted
deriving DecidableEq

/-- Outcome of create_discussion: its event trace, the URL it printed (the
existing discussion's, or the created one's when the echoed title matches
the post path), and whether it returned Ok. -/
structure OrchestrationRun where
  events : List OrchestrationEvent
  reportedUrl : Option String
  succeeded : Bool
deriving DecidableEq

/-- create_discussion after the join: dupResult is the Ok value of
discussion_exists, mutationPayload the discussion echoed by the server when
the creation mutation is executed. -/
def create_discussion (postUrlPath : String) (dupResult : Option String)
    (mutationPayload : Option Discussion) : OrchestrationRun :=
  match dupResult with
  | some url =>
    { events := [.dupResultKnown (some url)]
      reportedUrl := some url
      succeeded := true }
  | none =>
    match mutationPayload with
    | some disc =>
      { events := [.dupResultKnown none, .createMutationExecuted]
        reportedUrl := if disc.title == postUrlPath then some disc.url else none
        succeeded := true }
    | none =>
      { events := [.dupResultKnown none, .createMutationExecuted]
        reportedUrl := none
        succeeded := false }

/-! ## Shared helper lemmas -/

/-- A retry classification yields some sleep length. -/
theorem isRetryStep_retry (T : Type) (n : Nat) (r : RustResult T)
    (h : isRetryStep T n r = true) : ∃ s, decideStep T n r = .retry s := by
  cases hd : decideStep T n r with
  | retry s => exact ⟨s, rfl⟩
  | halt res => simp [isRetryStep, hd] at h
  | pass r2 => simp [isRetryStep, hd] at h

/-- The attempt counter of the loop is bounded by its start plus the
remaining variable sets. -/
theorem gqlLoop_attempts_le (T : Type) (opName : String) (responses : Nat → RustResult T) :
    ∀ (remaining attempt : Nat) (sleeps : List Nat),
      (gqlLoop T opName responses remaining attempt sleeps).attempts ≤ attempt + remaining := by
  intro remaining
  induction remaining with
  | zero => intro attempt sleeps; simp [gqlLoop]
  | succ k ih =>
    intro attempt sleeps
    cases hd : decideStep T (attempt + 1) (responses (attempt + 1)) with
    | retry s =>
      simp only [gqlLoop, hd]
      exact (ih (attempt + 1) (sleeps ++ [s])).trans (by omega)
    | halt res => simp only [gqlLoop, hd]; omega
    | pass r => simp only [gqlLoop, hd]; omega

/-- Discussions whose step decides nothing are skipped by the scan. -/
theorem scanDiscussions_append_none (candPath : String) (now lookbackDays : Int) :
    ∀ (ds1 : List Discussion),
      (∀ e ∈ ds1, discussionStep candPath now lookbackDays e = none) →
      ∀ rest, scanDiscussions candPath now lookbackDays (ds1 ++ rest) =
        scanDiscussions candPath now lookbackDays rest := by
  intro ds1
  induction ds1 with
  | nil => intro _ rest; rfl
  | cons d ds ih =>
    intro h rest
    have hd : discussionStep candPath now lookbackDays d = none := h d (by simp)
    simp only [List.cons_append, scanDiscussions, hd]
    exact ih (fun e he => h e (by simp [he])) rest

/-- The empty pattern is a substring of every string. -/
theorem strContains_empty_pattern (s : String) : strContains s "" = true := by
  unfold strContains
  cases s.data with
  | nil => rfl
  | cons h t => rfl

/-- The category walk always records the cursor it was entered with as the
first request it issues. -/
theorem get_category_id_walk_head (target owner repoName : String) (cursor : Option String)
    (pages : List CategoryPage) :
    (get_category_id_walk target owner repoName cursor pages).1.head? =
      some ⟨owner, repoName, cursor⟩ := by
  cases pages with
  | nil => rfl
  | cons page rest =>
    cases hfind : (page.edges.filterMap CategoryEdge.node).find? (fun cat => cat.name == target) with
    | some cat => simp [get_category_id_walk, hfind]
    | none =>
      by_cases hn : page.pageInfo.hasNextPage <;>
        simp [get_category_id_walk, hfind, hn]

/-- The discussion walk always records the cursor it was entered with as the
first request it issues. -/
theorem discussion_exists_walk_head (candPath : String) (now lookbackDays : Int)
    (owner repoName catId : String) (cursor : Option String) (pages : List DiscussionPage) :
    (discussion_exists_walk candPath now lookbackDays owner repoName catId cursor pages).1.head? =
      some ⟨owner, repoName, catId, cursor⟩ := by
  cases pages with
  | nil => rfl
  | cons page rest =>
    cases hscan : scanDiscussions candPath now lookbackDays
        (page.edges.filterMap DiscussionEdge.node) with
    | some r => simp [discussion_exists_walk, hscan]
    | none =>
      by_cases hn : page.pageInfo.hasNextPage <;>
        simp [discussion_exists_walk, hscan, hn]

/-- A category pagination in which no page holds the requested name, every
page but the last signals a next page and the last does not, ends in the
missing-category panic after consuming every page. -/
theorem get_category_id_walk_exhaust (target owner repoName : String) :
    ∀ (front : List CategoryPage) (last : CategoryPage) (cursor : Option String),
      (∀ p ∈ front ++ [last], ∀ c ∈ p.edges.filterMap CategoryEdge.node, c.name ≠ target) →
      (∀ p ∈ front, p.pageInfo.hasNextPage = true) →
      last.pageInfo.hasNextPage = false →
      (get_category_id_walk target owner repoName cursor (front ++ [last])).2 =
        some (.fatalMissing target owner repoName) ∧
      (get_category_id_walk target owner repoName cursor (front ++ [last])).1.length =
        front.length + 1 := by
  intro front
  induction front with
  | nil =>
    intro last cursor hmiss _ hlast
    have hfind : (last.edges.filterMap CategoryEdge.node).find?
        (fun cat => cat.name == target) = none := by
      rw [List.find?_eq_none]
      intro c hc
      simp [hmiss last (by simp) c hc]
    simp [get_category_id_walk, hfind, hlast]
  | cons p front ih =>
    intro last cursor hmiss hnext hlast
    have hfind : (p.edges.filterMap CategoryEdge.node).find?
        (fun cat => cat.name == target) = none := by
      rw [List.find?_eq_none]
      intro c hc
      simp [hmiss p (by simp) c hc]
    have hp : p.pageInfo.hasNextPage = true := hnext p (by simp)
    have hrest := ih last p.pageInfo.endCursor
      (fun q hq => hmiss q (by simp at hq ⊢; tauto))
      (fun q hq => hnext q (by simp [hq])) hlast
    simp only [List.cons_append, get_category_id_walk, hfind, hp, if_pos]
    refine ⟨hrest.1, ?_⟩
    simp [hrest.2]

/-! ## Claim theorems -/

/-- C1 counterexample: a 401 response whose body contains the server-error
marker is not classified Fatal-Auth; the loop sleeps 30 seconds five times
and ends in exhaustion, because the body check precedes the status match. -/
theorem C1_counterexample :
    github_gql_query Unit "query" (fun _ => .errResp 401 "502 Server Error") =
      ⟨.fatalExhausted 5 "query", [30, 30, 30, 30, 30], 5⟩ ∧
    (github_gql_query Unit "query" (fun _ => .errResp 401 "502 Server Error")).result ≠
      .fatalAuth 401 "502 Server Error" := by
  constructor
  · decide
  · decide

/-- C1 (amended): a 401 response whose body does not contain the server-error
marker is classified Fatal-Auth immediately, with no sleep and no further
attempt, regardless of the attempt count at which it arrives. -/
theorem C1_fatal_auth (T : Type) (opName : String) (responses : Nat → RustResult T)
    (remaining attempt : Nat) (sleeps : List Nat) (body : String)
    (hbody : strContains body serverErrorMarker = false)
    (hresp : responses (attempt + 1) = .errResp 401 body) :
    gqlLoop T opName responses (remaining + 1) attempt sleeps =
      ⟨.fatalAuth 401 body, sleeps, attempt + 1⟩ := by
  simp [gqlLoop, hresp, decideStep, hbody]

/-- C1 witness: a 401 with a marker-free body on the third attempt is fatal
at once, leaving the two sleeps already accumulated untouched. -/
theorem C1_fatal_auth_witness :
    strContains "bad credentials" serverErrorMarker = false ∧
    gqlLoop Unit "query" (fun _ => .errResp 401 "bad credentials") 3 2 [30, 30] =
      ⟨.fatalAuth 401 "bad credentials", [30, 30], 3⟩ :=
  ⟨by decide,
   C1_fatal_auth Unit "query" (fun _ => .errResp 401 "bad credentials") 2 2 [30, 30]
     "bad credentials" (by decide) rfl⟩

/-- C2 counterexample: a server-error retry advances the attempt counter
that the 403 backoff exponent uses. With a server-error response on attempt
1 and a 403 on attempt 2, the sleeps are 30 then 5*2^2 = 20 seconds; with
the server-error retry removed the same 403 arrives on attempt 1 and sleeps
5*2^1 = 10 seconds — the later 403 does not back off as if the server-error
retry had not happened. -/
theorem C2_counterexample :
    (github_gql_query Unit "q"
        (fun n => if n = 1 then .errResp 500 "Server Error"
                  else if n = 2 then .errResp 403 "rate limited" else .ok ())).sleeps =
      [30, 20] ∧
    (github_gql_query Unit "q"
        (fun n => if n = 1 then .errResp 403 "rate limited" else .ok ())).sleeps =
      [10] ∧
    (20 : Nat) ≠ 10 := by
  refine ⟨by decide, by decide, by decide⟩

/-- C2 (amended): a response whose body contains the server-error marker
makes the loop sleep 30 seconds and retry, consuming one attempt and
advancing the attempt counter; a later 403 on overall attempt n (counting
the server-error retries) backs off 5 * 2 ^ n seconds. -/
theorem C2_server_error_retry (T : Type) (opName : String) (responses : Nat → RustResult T)
    (remaining attempt : Nat) (sleeps : List Nat) (status : Nat) (body : String)
    (hbody : strContains body serverErrorMarker = true)
    (hresp : responses (attempt + 1) = .errResp status body) :
    gqlLoop T opName responses (remaining + 1) attempt sleeps =
      gqlLoop T opName responses remaining (attempt + 1) (sleeps ++ [30]) ∧
    (∀ (n : Nat) (b : String), strContains b serverErrorMarker = false →
      decideStep T n (.errResp 403 b) = .retry (5 * 2 ^ n)) := by
  constructor
  · simp [gqlLoop, hresp, decideStep, hbody]
  · intro n b hb
    simp [decideStep, hb]

/-- C2 witness: a server-error body on the first attempt sleeps 30 seconds
and hands attempt counter 1 to the rest of the loop, and a 403 arriving on
attempt 2 is then classified with sleep 5 * 2 ^ 2. -/
theorem C2_server_error_retry_witness :
    strContains "502 Server Error" serverErrorMarker = true ∧
    gqlLoop Unit "q" (fun _ => .errResp 500 "502 Server Error") 5 0 [] =
      gqlLoop Unit "q" (fun _ => .errResp 500 "502 Server Error") 4 1 [30] ∧
    decideStep Unit 2 (.errResp 403 "rate limited") = .retry (5 * 2 ^ 2) :=
  ⟨by decide,
   (C2_server_error_retry Unit "q" (fun _ => .errResp 500 "502 Server Error") 4 0 []
      500 "502 Server Error" (by decide) rfl).1,
   (C2_server_error_retry Unit "q" (fun _ => .errResp 500 "502 Server Error") 4 0 []
      500 "502 Server Error" (by decide) rfl).2 2 "rate limited" (by decide)⟩

/-- C8: a 403 response without the server-error body marker received on
attempt n = attempt + 1 (1-indexed) makes the loop sleep exactly
5 * 2 ^ n seconds before the next attempt, with no jitter. -/
theorem C8_backoff_formula (T : Type) (opName : String) (responses : Nat → RustResult T)
    (remaining attempt : Nat) (sleeps : List Nat) (body : String)
    (hbody : strContains body serverErrorMarker = false)
    (hresp : responses (attempt + 1) = .errResp 403 body) :
    gqlLoop T opName responses (remaining + 1) attempt sleeps =
      gqlLoop T opName responses remaining (attempt + 1)
        (sleeps ++ [5 * 2 ^ (attempt + 1)]) := by
  simp [gqlLoop, hresp, decideStep, hbody]

/-- C8 witness: 403 rate limits on attempts 1 and 2 sleep 10 then 20
seconds. -/
theorem C8_backoff_formula_witness :
    strContains "rate limited" serverErrorMarker = false ∧
    gqlLoop Unit "q" (fun _ => .errResp 403 "rate limited") 5 0 [] =
      gqlLoop Unit "q" (fun _ => .errResp 403 "rate limited") 4 1 [10] ∧
    gqlLoop Unit "q" (fun _ => .errResp 403 "rate limited") 4 1 [10] =
      gqlLoop Unit "q" (fun _ => .errResp 403 "rate limited") 3 2 [10, 20] :=
  ⟨by decide,
   C8_backoff_formula Unit "q" (fun _ => .errResp 403 "rate limited") 4 0 []
     "rate limited" (by decide) rfl,
   C8_backoff_formula Unit "q" (fun _ => .errResp 403 "rate limited") 3 1 [10]
     "rate limited" (by decide) rfl⟩

/-- C3: four retryable responses followed by a success on the fifth attempt
return that success; five retryable responses end in the exhaustion panic
carrying the attempt ceiling and the operation name; and the attempt count
of one logical query never exceeds 5. -/
theorem C3_retry_ceiling :
    (∀ (T : Type) (opName : String) (responses : Nat → RustResult T) (v : T),
      (∀ j, 1 ≤ j → j ≤ 4 → isRetryStep T j (responses j) = true) →
      responses 5 = .ok v →
      (github_gql_query T opName responses).result = .returned (.ok v) ∧
      (github_gql_query T opName responses).attempts = 5) ∧
    (∀ (T : Type) (opName : String) (responses : Nat → RustResult T),
      (∀ j, 1 ≤ j → j ≤ 5 → isRetryStep T j (responses j) = true) →
      (github_gql_query T opName responses).result = .fatalExhausted 5 opName ∧
      (github_gql_query T opName responses).attempts = 5) ∧
    (∀ (T : Type) (opName : String) (responses : Nat → RustResult T),
      (github_gql_query T opName responses).attempts ≤ 5) := by
  refine ⟨?_, ?_, ?_⟩
  · intro T opName responses v h hok
    obtain ⟨s1, d1⟩ := isRetryStep_retry T 1 (responses 1) (h 1 (by omega) (by omega))
    obtain ⟨s2, d2⟩ := isRetryStep_retry T 2 (responses 2) (h 2 (by omega) (by omega))
    obtain ⟨s3, d3⟩ := isRetryStep_retry T 3 (responses 3) (h 3 (by omega) (by omega))
    obtain ⟨s4, d4⟩ := isRetryStep_retry T 4 (responses 4) (h 4 (by omega) (by omega))
    have d5 : decideStep T 5 (responses 5) = .pass (.ok v) := by rw [hok]; rfl
    constructor <;>
      simp [github_gql_query, gqlLoop, d1, d2, d3, d4, d5]
  · intro T opName responses h
    obtain ⟨s1, d1⟩ := isRetryStep_retry T 1 (responses 1) (h 1 (by omega) (by omega))
    obtain ⟨s2, d2⟩ := isRetryStep_retry T 2 (responses 2) (h 2 (by omega) (by omega))
    obtain ⟨s3, d3⟩ := isRetryStep_retry T 3 (responses 3) (h 3 (by omega) (by omega))
    obtain ⟨s4, d4⟩ := isRetryStep_retry T 4 (responses 4) (h 4 (by omega) (by omega))
    obtain ⟨s5, d5⟩ := isRetryStep_retry T 5 (responses 5) (h 5 (by omega) (by omega))
    constructor <;>
      simp [github_gql_query, gqlLoop, d1, d2, d3, d4, d5]
  · intro T opName responses
    exact (gqlLoop_attempts_le T opName responses 5 0 []).trans (by omega)

/-- C3 witness: four 500 responses then a success return the success on
attempt 5; five 500 responses exhaust the loop; the attempt bound holds on
a concrete run. -/
theorem C3_retry_ceiling_witness :
    ((github_gql_query Unit "q"
        (fun n => if n ≤ 4 then .errResp 500 "boom" else .ok ())).result =
      .returned (.ok ()) ∧
     (github_gql_query Unit "q"
        (fun n => if n ≤ 4 then .errResp 500 "boom" else .ok ())).attempts = 5) ∧
    ((github_gql_query Unit "q" (fun _ => .errResp 500 "boom")).result =
      .fatalExhausted 5 "q" ∧
     (github_gql_query Unit "q" (fun _ => .errResp 500 "boom")).attempts = 5) ∧
    (github_gql_query Unit "q" (fun _ => .errResp 500 "boom")).attempts ≤ 5 :=
  ⟨C3_retry_ceiling.1 Unit "q" (fun n => if n ≤ 4 then .errResp 500 "boom" else .ok ()) ()
     (by intro j h1 h2; interval_cases j <;> decide) (by decide),
   C3_retry_ceiling.2.1 Unit "q" (fun _ => .errResp 500 "boom")
     (by intro j h1 h2; interval_cases j <;> decide),
   C3_retry_ceiling.2.2 Unit "q" (fun _ => .errResp 500 "boom")⟩

/-- C4: with a positive lookback, the first scanned discussion older than
now minus the lookback window ends the walk with no match, requesting no
further page and examining no further discussion, even when a later
discussion would have matched; with lookback 0, the step never stops on age,
and a matching discussion's URL is returned past arbitrarily old
predecessors. -/
theorem C4_lookback_cutoff :
    (∀ (candPath : String) (now lookbackDays : Int) (owner repoName catId : String)
       (page : DiscussionPage) (ds1 ds2 : List Discussion) (d : Discussion)
       (rest : List DiscussionPage),
       0 < lookbackDays →
       page.edges.filterMap DiscussionEdge.node = ds1 ++ d :: ds2 →
       (∀ e ∈ ds1, discussionStep candPath now lookbackDays e = none) →
       now - d.createdAt > lookbackDays * secondsPerDay →
       discussion_exists candPath now lookbackDays owner repoName catId (page :: rest) =
         ([⟨owner, repoName, catId, none⟩], some none)) ∧
    (∀ (candPath : String) (now : Int) (d : Discussion),
       discussionStep candPath now 0 d ≠ some none) ∧
    (∀ (candPath : String) (now : Int) (owner repoName catId : String)
       (page : DiscussionPage) (ds1 ds2 : List Discussion) (d : Discussion)
       (rest : List DiscussionPage),
       page.edges.filterMap DiscussionEdge.node = ds1 ++ d :: ds2 →
       (∀ e ∈ ds1, strContains candPath e.title = false) →
       strContains candPath d.title = true →
       discussion_exists candPath now 0 owner repoName catId (page :: rest) =
         ([⟨owner, repoName, catId, none⟩], some (some d.url))) := by
  refine ⟨?_, ?_, ?_⟩
  · intro candPath now lookbackDays owner repoName catId page ds1 ds2 d rest
      hpos hnodes hds1 hage
    have hd : discussionStep candPath now lookbackDays d = some none := by
      unfold discussionStep
      rw [if_pos ⟨by omega, hage⟩]
    have hscan : scanDiscussions candPath now lookbackDays
        (page.edges.filterMap DiscussionEdge.node) = some none := by
      rw [hnodes, scanDiscussions_append_none candPath now lookbackDays ds1 hds1]
      simp [scanDiscussions, hd]
    simp [discussion_exists, discussion_exists_walk, hscan]
  · intro candPath now d
    unfold discussionStep
    rw [if_neg (by simp)]
    by_cases hm : strContains candPath d.title <;> simp [hm]
  · intro candPath now owner repoName catId page ds1 ds2 d rest hnodes hds1 hmatch
    have hds1n : ∀ e ∈ ds1, discussionStep candPath now 0 e = none := by
      intro e he
      unfold discussionStep
      rw [if_neg (by simp), if_neg (by simp [hds1 e he])]
    have hd : discussionStep candPath now 0 d = some (some d.url) := by
      unfold discussionStep
      rw [if_neg (by simp), if_pos hmatch]
    have hscan : scanDiscussions candPath now 0
        (page.edges.filterMap DiscussionEdge.node) = some (some d.url) := by
      rw [hnodes, scanDiscussions_append_none candPath now 0 ds1 hds1n]
      simp [scanDiscussions, hd]
    simp [discussion_exists, discussion_exists_walk, hscan]

/-- C4 witness: the specification's example run. With discussions
titled "/blog/post-b" (1 day old) and "/blog/post-a" (10 days old) scanned
newest-first, lookback 7 and candidate path "/blog/post-a", the walk stops
on age at the second entry and returns no match; with lookback 0 it
returns the URL of post-a. -/
theorem C4_lookback_cutoff_witness :
    (0 : Int) < 7 ∧
    discussion_exists "/blog/post-a" 0 7 "o" "r" "c"
      [⟨[⟨some ⟨"idb", "/blog/post-b", -86400, "urlb"⟩, "cb"⟩,
         ⟨some ⟨"ida", "/blog/post-a", -864000, "urla"⟩, "ca"⟩], ⟨none, false⟩⟩] =
      ([⟨"o", "r", "c", none⟩], some none) ∧
    discussionStep "/blog/post-a" 0 0 ⟨"ida", "/blog/post-a", -864000, "urla"⟩ ≠ some none ∧
    discussion_exists "/blog/post-a" 0 0 "o" "r" "c"
      [⟨[⟨some ⟨"idb", "/blog/post-b", -86400, "urlb"⟩, "cb"⟩,
         ⟨some ⟨"ida", "/blog/post-a", -864000, "urla"⟩, "ca"⟩], ⟨none, false⟩⟩] =
      ([⟨"o", "r", "c", none⟩], some (some "urla")) :=
  ⟨by decide,
   C4_lookback_cutoff.1 "/blog/post-a" 0 7 "o" "r" "c"
     ⟨[⟨some ⟨"idb", "/blog/post-b", -86400, "urlb"⟩, "cb"⟩,
       ⟨some ⟨"ida", "/blog/post-a", -864000, "urla"⟩, "ca"⟩], ⟨none, false⟩⟩
     [⟨"idb", "/blog/post-b", -86400, "urlb"⟩] []
     ⟨"ida", "/blog/post-a", -864000, "urla"⟩ []
     (by decide) (by decide)
     (by intro e he; simp at he; subst he; decide) (by decide),
   C4_lookback_cutoff.2.1 "/blog/post-a" 0 ⟨"ida", "/blog/post-a", -864000, "urla"⟩,
   C4_lookback_cutoff.2.2 "/blog/post-a" 0 "o" "r" "c"
     ⟨[⟨some ⟨"idb", "/blog/post-b", -86400, "urlb"⟩, "cb"⟩,
       ⟨some ⟨"ida", "/blog/post-a", -864000, "urla"⟩, "ca"⟩], ⟨none, false⟩⟩
     [⟨"idb", "/blog/post-b", -86400, "urlb"⟩] []
     ⟨"ida", "/blog/post-a", -864000, "urla"⟩ []
     (by decide)
     (by intro e he; simp at he; subst he; decide) (by decide)⟩

/-- C10: the empty pattern is a substring of every string, so a discussion
with an empty title that is inside the lookback window (and is reached by
the scan) is reported as a duplicate with its URL; the only match test is
substring containment of the discussion title in the candidate URL path. -/
theorem C10_empty_title_duplicate :
    (∀ s : String, strContains s "" = true) ∧
    (∀ (candPath : String) (now lookbackDays : Int) (owner repoName catId : String)
       (page : DiscussionPage) (ds1 ds2 : List Discussion) (d : Discussion)
       (rest : List DiscussionPage),
       d.title = "" →
       ¬(lookbackDays ≠ 0 ∧ now - d.createdAt > lookbackDays * secondsPerDay) →
       page.edges.filterMap DiscussionEdge.node = ds1 ++ d :: ds2 →
       (∀ e ∈ ds1, discussionStep candPath now lookbackDays e = none) →
       discussion_exists candPath now lookbackDays owner repoName catId (page :: rest) =
         ([⟨owner, repoName, catId, none⟩], some (some d.url))) := by
  refine ⟨strContains_empty_pattern, ?_⟩
  intro candPath now lookbackDays owner repoName catId page ds1 ds2 d rest
    htitle hin hnodes hds1
  have hd : discussionStep candPath now lookbackDays d = some (some d.url) := by
    unfold discussionStep
    rw [if_neg hin, if_pos (by rw [htitle]; exact strContains_empty_pattern candPath)]
  have hscan : scanDiscussions candPath now lookbackDays
      (page.edges.filterMap DiscussionEdge.node) = some (some d.url) := by
    rw [hnodes, scanDiscussions_append_none candPath now lookbackDays ds1 hds1]
    simp [scanDiscussions, hd]
  simp [discussion_exists, discussion_exists_walk, hscan]

/-- C10 witness: an empty-titled discussion one day old, lookback 7,
candidate path "/blog/post-a": it is reported as the duplicate. -/
theorem C10_empty_title_duplicate_witness :
    strContains "/blog/post-a" "" = true ∧
    discussion_exists "/blog/post-a" 0 7 "o" "r" "c"
      [⟨[⟨some ⟨"id0", "", -86400, "url0"⟩, "c0"⟩], ⟨none, false⟩⟩] =
      ([⟨"o", "r", "c", none⟩], some (some "url0")) :=
  ⟨C10_empty_title_duplicate.1 "/blog/post-a",
   C10_empty_title_duplicate.2 "/blog/post-a" 0 7 "o" "r" "c"
     ⟨[⟨some ⟨"id0", "", -86400, "url0"⟩, "c0"⟩], ⟨none, false⟩⟩
     [] [] ⟨"id0", "", -86400, "url0"⟩ []
     rfl (by decide) (by decide) (by intro e he; simp at he)⟩

/-- C5: when no page of the pagination holds the requested category name,
the resolver keeps requesting pages while hasNextPage is true and fails with
the missing-category panic, naming the category and repository, only after
the final page (the one with hasNextPage = false) is consumed; and a page
with hasNextPage = false terminates pagination unconditionally, whatever
pages would follow. -/
theorem C5_category_exhaustion :
    (∀ (target owner repoName : String) (front : List CategoryPage) (last : CategoryPage),
       (∀ p ∈ front ++ [last], ∀ c ∈ p.edges.filterMap CategoryEdge.node, c.name ≠ target) →
       (∀ p ∈ front, p.pageInfo.hasNextPage = true) →
       last.pageInfo.hasNextPage = false →
       (get_category_id target owner repoName (front ++ [last])).2 =
         some (.fatalMissing target owner repoName) ∧
       (get_category_id target owner repoName (front ++ [last])).1.length =
         front.length + 1) ∧
    (∀ (target owner repoName : String) (cursor : Option String)
       (page : CategoryPage) (rest : List CategoryPage),
       page.pageInfo.hasNextPage = false →
       get_category_id_walk target owner repoName cursor (page :: rest) =
         get_category_id_walk target owner repoName cursor [page]) := by
  constructor
  · intro target owner repoName front last hmiss hnext hlast
    exact get_category_id_walk_exhaust target owner repoName front last none hmiss hnext hlast
  · intro target owner repoName cursor page rest hlast
    cases hfind : (page.edges.filterMap CategoryEdge.node).find?
        (fun cat => cat.name == target) with
    | some cat => simp [get_category_id_walk, hfind]
    | none => simp [get_category_id_walk, hfind, hlast]

/-- C5 witness: the specification's example, three pages without the
requested name, hasNextPage true, true, false: the panic arrives only after
the third request. -/
theorem C5_category_exhaustion_witness :
    ((get_category_id "Removed" "o" "r"
        [⟨[⟨some ⟨"i1", "Blogs"⟩, "c1"⟩], ⟨some "p1", true⟩⟩,
         ⟨[⟨some ⟨"i2", "General"⟩, "c2"⟩], ⟨some "p2", true⟩⟩,
         ⟨[⟨some ⟨"i3", "Ideas"⟩, "c3"⟩], ⟨none, false⟩⟩]).2 =
      some (.fatalMissing "Removed" "o" "r") ∧
     (get_category_id "Removed" "o" "r"
        [⟨[⟨some ⟨"i1", "Blogs"⟩, "c1"⟩], ⟨some "p1", true⟩⟩,
         ⟨[⟨some ⟨"i2", "General"⟩, "c2"⟩], ⟨some "p2", true⟩⟩,
         ⟨[⟨some ⟨"i3", "Ideas"⟩, "c3"⟩], ⟨none, false⟩⟩]).1.length = 3) ∧
    get_category_id_walk "Removed" "o" "r" none
        [⟨[⟨some ⟨"i3", "Ideas"⟩, "c3"⟩], ⟨none, false⟩⟩,
         ⟨[⟨some ⟨"i4", "Removed"⟩, "c4"⟩], ⟨none, false⟩⟩] =
      get_category_id_walk "Removed" "o" "r" none
        [⟨[⟨some ⟨"i3", "Ideas"⟩, "c3"⟩], ⟨none, false⟩⟩] :=
  ⟨C5_category_exhaustion.1 "Removed" "o" "r"
     [⟨[⟨some ⟨"i1", "Blogs"⟩, "c1"⟩], ⟨some "p1", true⟩⟩,
      ⟨[⟨some ⟨"i2", "General"⟩, "c2"⟩], ⟨some "p2", true⟩⟩]
     ⟨[⟨some ⟨"i3", "Ideas"⟩, "c3"⟩], ⟨none, false⟩⟩
     (by decide) (by decide) (by decide),
   C5_category_exhaustion.2 "Removed" "o" "r" none
     ⟨[⟨some ⟨"i3", "Ideas"⟩, "c3"⟩], ⟨none, false⟩⟩
     [⟨[⟨some ⟨"i4", "Removed"⟩, "c4"⟩], ⟨none, false⟩⟩] (by decide)⟩

/-- C9 counterexample: the first request of either pagination carries an
absent after_cursor (None), which is not the sentinel string value "null". -/
theorem C9_counterexample :
    (get_category_id "Blogs" "owner" "repo" []).1.head? =
      some ⟨"owner", "repo", none⟩ ∧
    (discussion_exists "/p" 0 0 "owner" "repo" "cid" []).1.head? =
      some ⟨"owner", "repo", "cid", none⟩ ∧
    (none : Option String) ≠ some "null" := by
  refine ⟨by decide, by decide, by decide⟩

/-- C9 (amended): in every pagination walk, category listing and discussion
listing alike, the first page request carries after_cursor = None: the
absent cursor is passed as a genuinely absent (null) field, not as the
sentinel string "null". -/
theorem C9_first_cursor_absent (target owner repoName : String)
    (pages : List CategoryPage) (candPath : String) (now lookbackDays : Int)
    (catId : String) (dpages : List DiscussionPage) :
    (get_category_id target owner repoName pages).1.head? =
      some ⟨owner, repoName, none⟩ ∧
    (discussion_exists candPath now lookbackDays owner repoName catId dpages).1.head? =
      some ⟨owner, repoName, catId, none⟩ :=
  ⟨get_category_id_walk_head target owner repoName none pages,
   discussion_exists_walk_head candPath now lookbackDays owner repoName catId none dpages⟩

/-- C6: in a create_discussion run the duplicate-detection result is the
first event of the trace, so the creation mutation is never executed before
that result is known; and when a duplicate is reported, the mutation is
absent from the trace, the existing discussion's URL is the one reported,
and the run succeeds. -/
theorem C6_mutation_after_duplicate_check :
    ∀ (postUrlPath : String) (dupResult : Option String)
      (mutationPayload : Option Discussion),
      ((create_discussion postUrlPath dupResult mutationPayload).events.head? =
        some (.dupResultKnown dupResult)) ∧
      (∀ url, dupResult = some url →
        OrchestrationEvent.createMutationExecuted ∉
          (create_discussion postUrlPath dupResult mutationPayload).events ∧
        (create_discussion postUrlPath dupResult mutationPayload).reportedUrl = some url ∧
        (create_discussion postUrlPath dupResult mutationPayload).succeeded = true) := by
  intro postUrlPath dupResult mutationPayload
  constructor
  · cases dupResult with
    | some url => rfl
    | none => cases mutationPayload <;> rfl
  · rintro url rfl
    refine ⟨?_, rfl, rfl⟩
    simp [create_discussion]

/-- C6 witness: a found duplicate at a concrete URL short-circuits a
concrete run. -/
theorem C6_mutation_after_duplicate_check_witness :
    ((create_discussion "/p" (some "https://existing") none).events.head? =
      some (.dupResultKnown (some "https://existing"))) ∧
    (OrchestrationEvent.createMutationExecuted ∉
      (create_discussion "/p" (some "https://existing") none).events ∧
     (create_discussion "/p" (some "https://existing") none).reportedUrl =
      some "https://existing" ∧
     (create_discussion "/p" (some "https://existing") none).succeeded = true) :=
  ⟨(C6_mutation_after_duplicate_check "/p" (some "https://existing") none).1,
   (C6_mutation_after_duplicate_check "/p" (some "https://existing") none).2
     "https://existing" rfl⟩

/-- C7: the mutation is built with title equal to the post URL path, and
with body equal to the description followed by two newlines followed by the
full post URL when a description is present, and the full post URL alone
otherwise; on the specification's concrete inputs the bodies are
"d\n\nhttps://x/y" and "https://x/y". -/
theorem C7_mutation_body :
    (∀ (post : Post) (catId repoId : String),
       (create_graphql_request post catId repoId).title = post.urlPath) ∧
    (∀ (post : Post) (catId repoId : String) (d : String),
       post.description = some d →
       (create_graphql_request post catId repoId).desc = (d ++ "\n\n") ++ post.urlFull) ∧
    (∀ (post : Post) (catId repoId : String),
       post.description = none →
       (create_graphql_request post catId repoId).desc = post.urlFull) ∧
    (create_graphql_request ⟨some "d", "https://x/y", "/y"⟩ "c" "r").desc =
      "d\n\nhttps://x/y" ∧
    (create_graphql_request ⟨none, "https://x/y", "/y"⟩ "c" "r").desc =
      "https://x/y" := by
  refine ⟨fun post catId repoId => rfl, ?_, ?_, by decide, by decide⟩
  · intro post catId repoId d hd
    simp [create_graphql_request, full_desc, hd]
  · intro post catId repoId hd
    simp [create_graphql_request, full_desc, hd]

/-- C7 witness: the two description cases at the specification's inputs. -/
theorem C7_mutation_body_witness :
    (create_graphql_request ⟨some "d", "https://x/y", "/y"⟩ "c" "r").title = "/y" ∧
    (create_graphql_request ⟨some "d", "https://x/y", "/y"⟩ "c" "r").desc =
      ("d" ++ "\n\n") ++ "https://x/y" ∧
    (create_graphql_request ⟨none, "https://x/y", "/y"⟩ "c" "r").desc = "https://x/y" :=
  ⟨C7_mutation_body.1 ⟨some "d", "https://x/y", "/y"⟩ "c" "r",
   C7_mutation_body.2.1 ⟨some "d", "https://x/y", "/y"⟩ "c" "r" "d" rfl,
   C7_mutation_body.2.2.1 ⟨none, "https://x/y", "/y"⟩ "c" "r" rfl⟩
